import Mathlib

/-!
Verification of the Codespace proxy server (`server.js`, file-fallback
variant, and the degraded-mode variant in `src/unnamed/part_001`).

The JavaScript sources are embedded shallowly:
* `undefined`-or-string values (request headers, the environment variable)
  become `Option String`; JavaScript truthiness of such a value is
  `jsTruthy` (only `undefined`/`null` and the empty string are falsy).
* JSON body field values become `JsVal`: absent (`undef`), a string, or a
  non-string JSON value carried together with its JavaScript truthiness and
  its string coercion (the coercion the platform `URL` constructor applies).
* The mutable server globals (`ADMIN_TOKEN`, `config.target`) become a
  `ServerState` record threaded through a `step` function, one constructor
  of `Request` per Express route.
* The platform WHATWG `URL` constructor is modelled by `parseURL`,
  restricted to the fragment these claims exercise: scheme recognition over
  arbitrary strings, and scheme/host/pathname splitting for http(s) URLs
  (userinfo, default-port elision, percent-escaping and backslash
  normalisation are outside the modelled fragment).
-/

/-- Truthiness of a JavaScript value that is either a string or
undefined/null: only `undefined`, `null` and the empty string are falsy. -/
def jsTruthy : Option String → Bool
  | none => false
  | some s => s != ""

/-- JavaScript `x || a` on string-or-undefined values. -/
def jsOr (x a : Option String) : Option String :=
  if jsTruthy x then x else a

/-- Boolean test that `p` is a leading piece of `s` (JavaScript
`s.startsWith(p)`), computed on the character lists. -/
def strLeads (p s : String) : Bool :=
  p.data.isPrefixOf s.data

/-- JavaScript `s.slice(n)` for a non-negative `n`, on the character list. -/
def strDrop (s : String) (n : Nat) : String :=
  String.mk (s.data.drop n)

/-- Line 78 of server.js (line 73 of part_001): strip a leading
case-sensitive "Bearer " (7 characters) from a header value, otherwise
return it unchanged. -/
def stripBearer (h : String) : String :=
  if strLeads "Bearer " h then strDrop h 7 else h

/-- Outcome of the `requireAdminToken` middleware. -/
inductive AuthResult : Type
  | svcUnavailable
  | missingToken
  | invalidToken
  | ok
deriving DecidableEq, Repr

/-- HTTP status the middleware responds with (200 stands for "fall through
to the guarded handler"). -/
def authStatus : AuthResult → Nat
  | AuthResult.svcUnavailable => 503
  | AuthResult.missingToken => 401
  | AuthResult.invalidToken => 403
  | AuthResult.ok => 200

/-- Machine-readable error code of each failing middleware outcome. -/
def authErrorCode : AuthResult → Option String
  | AuthResult.svcUnavailable => some "admin_token_not_set"
  | AuthResult.missingToken => some "missing_token"
  | AuthResult.invalidToken => some "invalid_token"
  | AuthResult.ok => none

/-- Lines 68-81 of server.js (62-76 of part_001): the admin-token
middleware. `adminToken` is the current `ADMIN_TOKEN`, with the inactive
credential (`null` in part_001, a falsy string in server.js) represented as
`""`; `xHdr`/`aHdr` are the values `req.get` returns for `x-admin-token`
and `authorization` (`none` when the header is absent; Express returns `""`
for a header sent with an empty value). -/
def requireAdminToken (adminToken : String) (xHdr aHdr : Option String) : AuthResult :=
  if adminToken = "" then AuthResult.svcUnavailable
  else
    let header := jsOr xHdr aHdr
    if jsTruthy header = false then AuthResult.missingToken
    else
      let token := stripBearer (header.getD "")
      if token ≠ adminToken then AuthResult.invalidToken
      else AuthResult.ok

/-- Components of a parsed URL object as the handlers read them:
`protocol` keeps the trailing colon, `host` is host plus any explicit
port, `pathname` is the path component. -/
structure JsURL : Type where
  protocol : String
  host : String
  pathname : String
deriving DecidableEq, Repr

/-- Character allowed inside a URL scheme after its leading letter. -/
def schemeChar (c : Char) : Bool :=
  c.isAlpha || c.isDigit || c == '+' || c == '-' || c == '.'

/-- Accumulating scan for the scheme: stops at the first colon, fails on a
character outside the scheme grammar or when the string ends first. -/
def takeScheme : List Char → List Char → Option (List Char × List Char)
  | _acc, [] => none
  | acc, c :: cs =>
      if c == ':' then some (acc.reverse, cs)
      else if schemeChar c then takeScheme (c :: acc) cs
      else none

/-- Split a candidate URL into scheme characters and the remainder after
the colon; the scheme must start with a letter. -/
def splitScheme (cs : List Char) : Option (List Char × List Char) :=
  match cs with
  | [] => none
  | c :: cs' => if c.isAlpha then takeScheme [c] cs' else none

/-- Slashes separating an http(s) scheme from its authority. -/
def dropSlashes : List Char → List Char
  | '/' :: cs => dropSlashes cs
  | cs => cs

/-- Character that can still belong to the host (stops at path, query or
fragment). -/
def hostChar (c : Char) : Bool :=
  c != '/' && c != '?' && c != '#'

/-- Character that can still belong to the path (stops at query or
fragment). -/
def pathChar (c : Char) : Bool :=
  c != '?' && c != '#'

/-- Model of the platform WHATWG `new URL(str)` constructor (the sources
call it in `validateHttpUrl` and in the `/p` handler), restricted to the
fragment exercised here: a string with no scheme fails to parse; an http or
https URL needs a non-empty host and yields lowercased scheme and host and
a pathname defaulting to "/"; any other scheme parses opaquely with an
empty host. `none` stands for the constructor throwing. -/
def parseURL (s : String) : Option JsURL :=
  match splitScheme s.data with
  | none => none
  | some (sch, rest) =>
      let scheme := String.mk (sch.map Char.toLower)
      if scheme == "http" || scheme == "https" then
        let afterSlashes := dropSlashes rest
        let hostChars := afterSlashes.takeWhile hostChar
        let rest2 := afterSlashes.dropWhile hostChar
        if hostChars.isEmpty then none
        else
          let pathChars := rest2.takeWhile pathChar
          some { protocol := scheme ++ ":"
               , host := String.mk (hostChars.map Char.toLower)
               , pathname := if pathChars.isEmpty then "/" else String.mk pathChars }
      else
        some { protocol := scheme ++ ":"
             , host := ""
             , pathname := String.mk (rest.takeWhile pathChar) }

/-- Lines 83-90 of server.js (78-85 of part_001): a string is a valid
target iff `new URL` accepts it and the protocol is http or https; the
try/catch around the throwing constructor becomes the `Option` match. -/
def validateHttpUrl (s : String) : Bool :=
  match parseURL s with
  | none => false
  | some u => u.protocol == "http:" || u.protocol == "https:"

/-- Line 171 of server.js (152 of part_001):
`req.originalUrl.replace(^\/p, '') || '/'` — remove one leading "/p",
and use "/" when the remainder is empty. -/
def originalPathOf (originalUrl : String) : String :=
  let stripped := if strLeads "/p" originalUrl then strDrop originalUrl 2 else originalUrl
  if stripped = "" then "/" else stripped

/-- JavaScript `s.replace(\/$\, '')`: remove one trailing slash. -/
def stripTrailingSlash (s : String) : String :=
  if s.data.getLast? = some '/' then String.mk s.data.dropLast else s

/-- Lines 172-178 of server.js (153-159 of part_001): the outbound URL —
scheme and host of the configured target, then the target's pathname
(trailing slash removed) when it is neither empty nor "/", then the
stripped inbound path. -/
def proxyTarget (u : JsURL) (originalUrl : String) : String :=
  let originalPath := originalPathOf originalUrl
  let combinedPath :=
    (if u.pathname ≠ "" ∧ u.pathname ≠ "/" then stripTrailingSlash u.pathname else "")
      ++ originalPath
  u.protocol ++ "//" ++ u.host ++ combinedPath

/-- Value of one field of a JSON request body as a handler destructures it:
the field can be absent, a string, or a non-string JSON value, carried with
its JavaScript truthiness and the string the platform coerces it to (the
coercion `new URL` applies to a non-string argument). -/
inductive JsVal : Type
  | undef
  | str (s : String)
  | other (truthy : Bool) (coerced : String)
deriving DecidableEq, Repr

/-- JavaScript truthiness of a `JsVal`. -/
def jsValTruthy : JsVal → Bool
  | JsVal.undef => false
  | JsVal.str s => s != ""
  | JsVal.other t _ => t

/-- String coercion of a `JsVal` (what `new URL(v)` stringifies `v` to). -/
def jsValCoerce : JsVal → String
  | JsVal.undef => "undefined"
  | JsVal.str s => s
  | JsVal.other _ c => c

/-- Whether the value is a JSON string (JavaScript `typeof v === 'string'`). -/
def isStr : JsVal → Bool
  | JsVal.str _ => true
  | _ => false

/-- Truthiness of the nullable `config.target` slot. -/
def optTruthy : Option JsVal → Bool
  | none => false
  | some v => jsValTruthy v

/-- Line 25 of server.js: the baked-in fallback credential. -/
def fallbackToken : String := "changeme-REPLACE_THIS"

/-- Line 29 of server.js: `process.env.ADMIN_TOKEN || fallbackToken` — the
file-fallback variant's initial credential. -/
def initAdminToken_fallback (env : Option String) : String :=
  match env with
  | some s => if s = "" then fallbackToken else s
  | none => fallbackToken

/-- Line 9 of part_001: `process.env.ADMIN_TOKEN || null` — the degraded
variant's initial credential, with `null` represented as `""`. -/
def initAdminToken_degraded (env : Option String) : String :=
  match env with
  | some s => if s = "" then "" else s
  | none => ""

/-- Mutable globals of the server.js process plus the immutable environment
value the `/api/info` handler keeps re-reading: `envToken` is
`process.env.ADMIN_TOKEN`, `adminToken` the current `ADMIN_TOKEN`, `target`
the `config.target` slot. -/
structure ServerState : Type where
  envToken : Option String
  adminToken : String
  target : Option JsVal
deriving DecidableEq, Repr

/-- Process start of the server.js variant: credential from the environment
or the fallback constant, no target configured. -/
def initState (env : Option String) : ServerState :=
  { envToken := env, adminToken := initAdminToken_fallback env, target := none }

/-- Leading sentence of the joined ADMIN_INSTRUCTIONS text of server.js;
the remaining prose lines are elided, the endpoints only test the joined
string for null versus non-null. -/
def adminInstructionsText : String :=
  "ADMIN_TOKEN is not set via environment. The server is using the fallback token in server.js."

/-- Leading sentence of the joined ADMIN_INSTRUCTIONS text of part_001. -/
def adminInstructionsTextD : String :=
  "ADMIN_TOKEN is NOT set for this Codespace / server process."

/-- Response body of GET /api/info in server.js (lines 93-102). -/
structure InfoBody : Type where
  adminConfigured : Bool
  usingFallbackToken : Bool
  configuredTarget : Bool
  target : Option JsVal
  instructions : Option String
  note : String
deriving DecidableEq, Repr

/-- Lines 93-102 of server.js: the public info handler; every field is
computed from `process.env.ADMIN_TOKEN` (not from the live credential) and
from `config.target`. -/
def infoOf (st : ServerState) : InfoBody :=
  { adminConfigured := jsTruthy st.envToken
  , usingFallbackToken := !jsTruthy st.envToken
  , configuredTarget := optTruthy st.target
  , target := if optTruthy st.target then st.target else none
  , instructions := if jsTruthy st.envToken then none else some adminInstructionsText
  , note := "If using fallbackToken (editable in server.js), change it here and restart to persist, or use /api/change-admin-token to change in-memory (temporary)." }

/-- Response body of GET /api/info in part_001 (lines 88-95). -/
structure InfoBodyD : Type where
  adminConfigured : Bool
  configuredTarget : Bool
  target : Option JsVal
  instructions : Option String
deriving DecidableEq, Repr

/-- Lines 88-95 of part_001: the degraded variant's info handler;
`ADMIN_MODE` is `Boolean(ADMIN_TOKEN)`, and the credential there is the
constant the process started with. -/
def infoOfDegraded (adminToken : String) (target : Option JsVal) : InfoBodyD :=
  { adminConfigured := adminToken != ""
  , configuredTarget := optTruthy target
  , target := if optTruthy target then target else none
  , instructions := if adminToken != "" then none else some adminInstructionsTextD }

/-- Response of POST /api/change-admin-token past the middleware. -/
inductive ChangeResp : Type
  | invalidNewToken400
  | changed200
deriving DecidableEq, Repr

/-- Lines 107-115 of server.js: reject a newToken that is falsy, not a
string, or shorter than 16; otherwise overwrite the in-memory credential.
The 200 response is the fixed pair of message and note strings. -/
def handleChangeToken (st : ServerState) (newToken : JsVal) : ChangeResp × ServerState :=
  match newToken with
  | JsVal.str s =>
      if s = "" ∨ s.length < 16 then (ChangeResp.invalidNewToken400, st)
      else (ChangeResp.changed200, { st with adminToken := s })
  | _ => (ChangeResp.invalidNewToken400, st)

/-- Response of the `/p` handler. -/
inductive ProxyResp : Type
  | unavailable503
  | notConfigured404
  | relayTo (outbound : String)
  | urlThrow
deriving DecidableEq, Repr

/-- Whether the `/p` handler reached `proxy.web`, i.e. attempted upstream
network I/O. -/
def isRelay : ProxyResp → Bool
  | ProxyResp.relayTo _ => true
  | _ => false

/-- Status code of the two local `/p` failures (a relay's status comes from
the upstream and is not modelled). -/
def proxyRespStatus : ProxyResp → Option Nat
  | ProxyResp.unavailable503 => some 503
  | ProxyResp.notConfigured404 => some 404
  | _ => none

/-- Error code of the two local `/p` failures. -/
def proxyRespError : ProxyResp → Option String
  | ProxyResp.unavailable503 => some "admin_token_not_set"
  | ProxyResp.notConfigured404 => some "no_target_configured"
  | _ => none

/-- Lines 157-181 of server.js (137-162 of part_001): the forwarding
handler — credential check first, then the falsy-target check, then the
outbound URL computation and the call into `proxy.web`. `urlThrow` stands
for `new URL(config.target)` throwing, which no reachable state produces. -/
def handleProxy (adminToken : String) (target : Option JsVal) (originalUrl : String) : ProxyResp :=
  if adminToken = "" then ProxyResp.unavailable503
  else
    match target with
    | none => ProxyResp.notConfigured404
    | some v =>
        if jsValTruthy v = false then ProxyResp.notConfigured404
        else
          match parseURL (jsValCoerce v) with
          | some u => ProxyResp.relayTo (proxyTarget u originalUrl)
          | none => ProxyResp.urlThrow

/-- One inbound HTTP request, one constructor per Express route of
server.js; admin-gated routes carry the two auth header values. -/
inductive Request : Type
  | getInfo
  | changeToken (x a : Option String) (newToken : JsVal)
  | setConfig (x a : Option String) (target : JsVal)
  | getStatus (x a : Option String)
  | proxyReq (originalUrl : String)
  | otherReq
deriving DecidableEq, Repr

/-- Everything a route of server.js can respond with. -/
inductive Resp : Type
  | authErr (e : AuthResult)
  | infoOk (b : InfoBody)
  | invalidTarget400
  | targetSet200 (echo : JsVal)
  | changeResp (c : ChangeResp)
  | statusOk (configured : Bool) (target : Option JsVal)
  | proxyResp (p : ProxyResp)
  | notFound404
deriving DecidableEq, Repr

/-- Lines 118-130 of server.js (98-110 of part_001): reject a falsy target
or one `validateHttpUrl` refuses (the validator coerces a non-string
argument to a string first), else store the body value in `config.target`
and echo it. -/
def handleConfig (st : ServerState) (target : JsVal) : Resp × ServerState :=
  if jsValTruthy target = false ∨ validateHttpUrl (jsValCoerce target) = false then
    (Resp.invalidTarget400, st)
  else
    (Resp.targetSet200 target, { st with target := some target })

/-- Express middleware composition: run the guarded handler only when
`requireAdminToken` falls through, otherwise return its error response and
leave the state untouched. -/
def gate (st : ServerState) (x a : Option String) (k : ServerState → Resp × ServerState) :
    Resp × ServerState :=
  match requireAdminToken st.adminToken x a with
  | AuthResult.ok => k st
  | AuthResult.svcUnavailable => (Resp.authErr AuthResult.svcUnavailable, st)
  | AuthResult.missingToken => (Resp.authErr AuthResult.missingToken, st)
  | AuthResult.invalidToken => (Resp.authErr AuthResult.invalidToken, st)

/-- One request against the server.js route table: the response it sends
and the state the process keeps. -/
def step (st : ServerState) (r : Request) : Resp × ServerState :=
  match r with
  | Request.getInfo => (Resp.infoOk (infoOf st), st)
  | Request.changeToken x a v =>
      gate st x a fun s =>
        let p := handleChangeToken s v
        (Resp.changeResp p.1, p.2)
  | Request.setConfig x a v => gate st x a fun s => handleConfig s v
  | Request.getStatus x a =>
      gate st x a fun s =>
        (Resp.statusOk (optTruthy s.target) (if optTruthy s.target then s.target else none), s)
  | Request.proxyReq url => (Resp.proxyResp (handleProxy st.adminToken st.target url), st)
  | Request.otherReq => (Resp.notFound404, st)

/-- State after serving a list of requests in order. -/
def run (st : ServerState) : List Request → ServerState
  | [] => st
  | r :: rs => run (step st r).2 rs

/-- Invariant on the target configuration slot: unset, or holding a truthy
body value whose string coercion the URL Validator accepts. -/
def targetInv (st : ServerState) : Prop :=
  st.target = none ∨
    ∃ v, st.target = some v ∧ jsValTruthy v = true ∧ validateHttpUrl (jsValCoerce v) = true

/-- Whether a request is an authorized configure-target call whose body
value passed the truthiness and URL checks — the only kind of request
allowed to mutate the target slot. -/
def mutationOk (st : ServerState) (r : Request) : Bool :=
  match r with
  | Request.setConfig x a v =>
      decide (requireAdminToken st.adminToken x a = AuthResult.ok)
        && jsValTruthy v && validateHttpUrl (jsValCoerce v)
  | _ => false


lemma string_mk_data (t : String) : String.mk t.data = t := rfl

lemma string_eq_empty_of_data (p : String) (h : p.data = []) : p = "" := by
  cases p with
  | mk d => cases h; rfl

lemma append_ne_empty_left (p t : String) (hp : p ≠ "") : p ++ t ≠ "" := by
  intro h
  exact hp (string_eq_empty_of_data p ((List.append_eq_nil.mp (congrArg String.data h)).1))

lemma strLeads_append (p t : String) : strLeads p (p ++ t) = true := by
  simp [strLeads, List.isPrefixOf_iff_prefix]

lemma strDrop_bearer (t : String) : strDrop ("Bearer " ++ t) 7 = t := by
  show String.mk ((("Bearer " : String).data ++ t.data).drop 7) = t
  rw [show (7 : Nat) = ("Bearer " : String).data.length from rfl, List.drop_left,
    string_mk_data]

lemma stripBearer_append (t : String) : stripBearer ("Bearer " ++ t) = t := by
  simp [stripBearer, strLeads_append, strDrop_bearer]

lemma requireAdminToken_jsOr (tk : String) (x a : Option String) :
    requireAdminToken tk x a =
      if tk = "" then AuthResult.svcUnavailable
      else if jsTruthy (jsOr x a) = false then AuthResult.missingToken
      else if stripBearer ((jsOr x a).getD "") ≠ tk then AuthResult.invalidToken
      else AuthResult.ok := rfl

/-- C1, counterexample. The claim fails on the code in two reachable
corners. (1) A credential that itself begins with "Bearer " (legitimate: it
comes from the environment or a runtime replace): sending exactly that
correct token without any added prefix strips its leading seven characters
and yields 403 invalid_token, against the claim's "the correct token
succeeds both with and without the prefix". (2) An x-admin-token header
sent with an empty value while the credential is active: a header is
present and its (stripped) value differs from the credential, so the claim
mandates 403 invalid_token, but the code treats the falsy header chain as
missing and responds 401 missing_token. -/
theorem C1_counterexample :
    ("Bearer a123456789" : String) ≠ ""
  ∧ requireAdminToken "Bearer a123456789" (some "Bearer a123456789") none
      = AuthResult.invalidToken
  ∧ ("a123456789abcdef" : String) ≠ ""
  ∧ stripBearer "" ≠ "a123456789abcdef"
  ∧ requireAdminToken "a123456789abcdef" (some "") none = AuthResult.missingToken := by
  decide

/-- C1, amended. The Auth Gate fails in the fixed order of the claim, with
presence of a header meaning a non-empty header value (an empty-valued
header is treated as absent, 401), and the correct credential succeeds with
the "Bearer " prefix always, and without it provided the credential itself
does not begin with "Bearer ". Stripping is the exact case-sensitive
7-character match of the code. -/
theorem C1_auth_gate_order (t : String) (x a : Option String) :
    (t = "" → requireAdminToken t x a = AuthResult.svcUnavailable)
  ∧ (t ≠ "" → jsTruthy (jsOr x a) = false →
      requireAdminToken t x a = AuthResult.missingToken)
  ∧ (∀ v, t ≠ "" → jsOr x a = some v → v ≠ "" → stripBearer v ≠ t →
      requireAdminToken t x a = AuthResult.invalidToken)
  ∧ (∀ v, t ≠ "" → jsOr x a = some v → v ≠ "" → stripBearer v = t →
      requireAdminToken t x a = AuthResult.ok)
  ∧ (t ≠ "" → requireAdminToken t (some ("Bearer " ++ t)) none = AuthResult.ok)
  ∧ (t ≠ "" → stripBearer t = t → requireAdminToken t (some t) none = AuthResult.ok)
  ∧ authStatus AuthResult.svcUnavailable = 503
  ∧ authErrorCode AuthResult.svcUnavailable = some "admin_token_not_set"
  ∧ authStatus AuthResult.missingToken = 401
  ∧ authErrorCode AuthResult.missingToken = some "missing_token"
  ∧ authStatus AuthResult.invalidToken = 403
  ∧ authErrorCode AuthResult.invalidToken = some "invalid_token" := by
  refine ⟨?_, ?_, ?_, ?_, ?_, ?_, rfl, rfl, rfl, rfl, rfl, rfl⟩
  · intro ht
    simp [requireAdminToken, ht]
  · intro ht hf
    simp [requireAdminToken, ht, hf]
  · intro v ht hv hne hs
    rw [requireAdminToken_jsOr, if_neg ht, hv]
    simp [jsTruthy, hne, hs]
  · intro v ht hv hne hs
    rw [requireAdminToken_jsOr, if_neg ht, hv]
    simp [jsTruthy, hne, hs]
  · intro ht
    have hne : ("Bearer " ++ t) ≠ "" := append_ne_empty_left "Bearer " t (by decide)
    rw [requireAdminToken_jsOr, if_neg ht]
    simp [jsOr, jsTruthy, hne, stripBearer_append]
  · intro ht hfix
    rw [requireAdminToken_jsOr, if_neg ht]
    simp [jsOr, jsTruthy, ht, hfix]

/-- C1, witness: a concrete active credential sent with the "Bearer "
prefix authorizes. -/
theorem C1_auth_gate_order_witness :
    requireAdminToken "a123456789abcdef" (some ("Bearer " ++ "a123456789abcdef")) none
      = AuthResult.ok :=
  (C1_auth_gate_order "a123456789abcdef" (some ("Bearer " ++ "a123456789abcdef")) none
    ).2.2.2.2.1 (by decide)

/-- C10, counterexample. With both headers present — x-admin-token carrying
the empty value and authorization carrying the correct bare token — the
request authorizes, and removing the authorization header changes the
outcome to 401: the authorization header is therefore not ignored, and the
comparison is not made against the x-admin-token value (comparing "" to the
credential would give 403). -/
theorem C10_counterexample :
    requireAdminToken "a123456789abcdef" (some "") (some "a123456789abcdef")
      = AuthResult.ok
  ∧ requireAdminToken "a123456789abcdef" (some "") none = AuthResult.missingToken := by
  decide

/-- C10, amended. When the x-admin-token header is present with a non-empty
value, only it is used and the authorization header is ignored; an
empty-valued x-admin-token is treated exactly as an absent one, so the
authorization header is consulted. The "Bearer " prefix is stripped from
whichever header was selected — including x-admin-token, so a correct token
sent as "x-admin-token: Bearer token" authorizes — and an authorization
value that is the bare correct token (one not carrying the "Bearer "
prefix shape) is compared verbatim and authorizes. -/
theorem C10_header_precedence (tk s : String) (a : Option String) :
    (s ≠ "" → requireAdminToken tk (some s) a = requireAdminToken tk (some s) none)
  ∧ requireAdminToken tk (some "") a = requireAdminToken tk none a
  ∧ (tk ≠ "" → requireAdminToken tk (some ("Bearer " ++ tk)) a = AuthResult.ok)
  ∧ (tk ≠ "" → stripBearer tk = tk → requireAdminToken tk none (some tk) = AuthResult.ok) := by
  refine ⟨?_, ?_, ?_, ?_⟩
  · intro hs
    rw [requireAdminToken_jsOr, requireAdminToken_jsOr]
    simp [jsOr, jsTruthy, hs]
  · rw [requireAdminToken_jsOr, requireAdminToken_jsOr]
    simp [jsOr, jsTruthy]
  · intro ht
    have hne : ("Bearer " ++ tk) ≠ "" := append_ne_empty_left "Bearer " tk (by decide)
    rw [requireAdminToken_jsOr, if_neg ht]
    simp [jsOr, jsTruthy, hne, stripBearer_append]
  · intro ht hfix
    rw [requireAdminToken_jsOr, if_neg ht]
    simp [jsOr, jsTruthy, ht, hfix]

/-- C10, witness: with a concrete non-empty x-admin-token value the
authorization header makes no difference. -/
theorem C10_header_precedence_witness :
    requireAdminToken "a123456789abcdef" (some "wrongtoken") (some "a123456789abcdef")
      = requireAdminToken "a123456789abcdef" (some "wrongtoken") none :=
  (C10_header_precedence "a123456789abcdef" "wrongtoken" (some "a123456789abcdef")).1
    (by decide)

lemma strLeads_p_of (i : String) (hi : i = "/p" ∨ strLeads "/p/" i = true) :
    strLeads "/p" i = true := by
  rcases hi with h | h
  · subst h; decide
  · unfold strLeads at h ⊢
    rw [List.isPrefixOf_iff_prefix] at h ⊢
    exact List.IsPrefix.trans (by decide) h

/-- C2. For every target string the validator accepts and every inbound
path under the proxy prefix (the path "/p" itself or one starting with
"/p/"), the outbound URL is the target's scheme and host, then the
target's pathname with its trailing slash removed when that pathname is
neither empty nor the root "/", then the inbound path with its leading
"/p" removed ("/" when that remainder is empty); and the three example
compositions of the claim hold. -/
theorem C2_forward_path_composition (ts : String) (u : JsURL) (i : String)
    (_hts : parseURL ts = some u) (_hv : validateHttpUrl ts = true)
    (hi : i = "/p" ∨ strLeads "/p/" i = true) :
    proxyTarget u i =
      u.protocol ++ "//" ++ u.host
        ++ (if u.pathname ≠ "" ∧ u.pathname ≠ "/" then stripTrailingSlash u.pathname else "")
        ++ (if strDrop i 2 = "" then "/" else strDrop i 2)
  ∧ parseURL "https://example.com" = some ⟨"https:", "example.com", "/"⟩
  ∧ proxyTarget ⟨"https:", "example.com", "/"⟩ "/p/foo/bar" = "https://example.com/foo/bar"
  ∧ parseURL "https://example.com/api/" = some ⟨"https:", "example.com", "/api/"⟩
  ∧ proxyTarget ⟨"https:", "example.com", "/api/"⟩ "/p/foo" = "https://example.com/api/foo"
  ∧ proxyTarget ⟨"https:", "example.com", "/"⟩ "/p" = "https://example.com/" := by
  refine ⟨?_, by decide, by decide, by decide, by decide, by decide⟩
  have hlead : strLeads "/p" i = true := strLeads_p_of i hi
  unfold proxyTarget originalPathOf
  rw [hlead]
  simp [String.append_assoc]

/-- C2, witness: the general composition equation at the concrete target
https://example.com/api/ and inbound path /p/foo. -/
theorem C2_forward_path_composition_witness :
    proxyTarget ⟨"https:", "example.com", "/api/"⟩ "/p/foo" =
      "https:" ++ "//" ++ "example.com"
        ++ (if ("/api/" : String) ≠ "" ∧ ("/api/" : String) ≠ "/"
            then stripTrailingSlash "/api/" else "")
        ++ (if strDrop "/p/foo" 2 = "" then "/" else strDrop "/p/foo" 2) :=
  (C2_forward_path_composition "https://example.com/api/" ⟨"https:", "example.com", "/api/"⟩
    "/p/foo" (by decide) (by decide) (Or.inr (by decide))).1

/-- C3. On the forwarding route: an inactive credential yields the 503
admin_token_not_set response regardless of the target (so it takes
precedence over the target check) and the relay is not invoked; an active
credential with no configured target yields the 404 no_target_configured
response and the relay is not invoked; and the relay is invoked only when
the credential is active and a (truthy) target is set. The route handler
never mutates the state. -/
theorem C3_proxy_gate_order (st : ServerState) (t : String) (tg : Option JsVal) (url : String) :
    (t = "" → handleProxy t tg url = ProxyResp.unavailable503
        ∧ isRelay (handleProxy t tg url) = false)
  ∧ (t ≠ "" → tg = none → handleProxy t tg url = ProxyResp.notConfigured404
        ∧ isRelay (handleProxy t tg url) = false)
  ∧ (isRelay (handleProxy t tg url) = true → t ≠ "" ∧ optTruthy tg = true)
  ∧ (step st (Request.proxyReq url)).1
      = Resp.proxyResp (handleProxy st.adminToken st.target url)
  ∧ (step st (Request.proxyReq url)).2 = st
  ∧ proxyRespStatus ProxyResp.unavailable503 = some 503
  ∧ proxyRespError ProxyResp.unavailable503 = some "admin_token_not_set"
  ∧ proxyRespStatus ProxyResp.notConfigured404 = some 404
  ∧ proxyRespError ProxyResp.notConfigured404 = some "no_target_configured" := by
  refine ⟨?_, ?_, ?_, rfl, rfl, rfl, rfl, rfl, rfl⟩
  · intro ht
    simp [handleProxy, ht, isRelay]
  · intro ht htg
    simp [handleProxy, ht, htg, isRelay]
  · intro hr
    unfold handleProxy at hr
    by_cases ht : t = ""
    · simp [ht, isRelay] at hr
    · refine ⟨ht, ?_⟩
      rw [if_neg ht] at hr
      cases tg with
      | none => simp [isRelay] at hr
      | some v =>
          cases hv : jsValTruthy v with
          | false => simp [hv, isRelay] at hr
          | true => simp [optTruthy, hv]

/-- C3, witness: with the fallback credential active and no target set, a
concrete forwarding request gets the 404 and does not relay. -/
theorem C3_proxy_gate_order_witness :
    handleProxy fallbackToken none "/p/test" = ProxyResp.notConfigured404
      ∧ isRelay (handleProxy fallbackToken none "/p/test") = false :=
  (C3_proxy_gate_order ⟨none, fallbackToken, none⟩ fallbackToken none "/p/test").2.1
    (by decide) rfl

/-- C4, counterexample. Two reachable failures of the claim. (1) An
authorized replacement whose proposed token (length ≥ 16) equals the prior
credential succeeds, and afterwards the old value still matches — against
"afterwards the old value no longer matches". (2) The success response is
one fixed message: evaluating the handler from two states whose prior
credentials have different values and provenances (one environment-provided,
one with no environment variable) yields identical responses, so the
operation does not return the previous provenance to the caller. -/
theorem C4_counterexample :
    (handleChangeToken ⟨some "a123456789abcdef", "a123456789abcdef", none⟩
        (JsVal.str "a123456789abcdef")).1 = ChangeResp.changed200
  ∧ (handleChangeToken ⟨some "a123456789abcdef", "a123456789abcdef", none⟩
        (JsVal.str "a123456789abcdef")).2.adminToken = "a123456789abcdef"
  ∧ requireAdminToken
      (handleChangeToken ⟨some "a123456789abcdef", "a123456789abcdef", none⟩
        (JsVal.str "a123456789abcdef")).2.adminToken
      (some "a123456789abcdef") none = AuthResult.ok
  ∧ (handleChangeToken ⟨some "oldtokenAAAAAAAA", "oldtokenAAAAAAAA", none⟩
        (JsVal.str "newtoken012345678")).1
      = (handleChangeToken ⟨none, "changeme-REPLACE_THIS", none⟩
        (JsVal.str "newtoken012345678")).1 := by
  decide

/-- C4, amended. For every authorized change-credential call: a proposed
token that is absent, not a string, or shorter than 16 fails with the 400
invalid_new_token response and leaves the state — in particular the prior
credential — exactly as it was; a string of length ≥ 16 replaces the
in-memory credential, after which the new value is the one that matches and
the old value no longer matches provided it differs from the new one; the
success response is a fixed confirmation message carrying no provenance,
and no other component of the state (nothing persistent) is touched. -/
theorem C4_change_token (st : ServerState) (s : String) (b : Bool) (c : String) :
    handleChangeToken st JsVal.undef = (ChangeResp.invalidNewToken400, st)
  ∧ handleChangeToken st (JsVal.other b c) = (ChangeResp.invalidNewToken400, st)
  ∧ (s.length < 16 → handleChangeToken st (JsVal.str s) = (ChangeResp.invalidNewToken400, st))
  ∧ (16 ≤ s.length →
      handleChangeToken st (JsVal.str s) = (ChangeResp.changed200, { st with adminToken := s }))
  ∧ (16 ≤ s.length → (handleChangeToken st (JsVal.str s)).2.adminToken = s)
  ∧ (16 ≤ s.length → st.adminToken ≠ s →
      (handleChangeToken st (JsVal.str s)).2.adminToken ≠ st.adminToken)
  ∧ (16 ≤ s.length → (handleChangeToken st (JsVal.str s)).2.envToken = st.envToken
      ∧ (handleChangeToken st (JsVal.str s)).2.target = st.target) := by
  have hvalid : 16 ≤ s.length →
      handleChangeToken st (JsVal.str s) = (ChangeResp.changed200, { st with adminToken := s }) := by
    intro h
    have hne : ¬(s = "" ∨ s.length < 16) := by
      rintro (e | l)
      · subst e; simp at h
      · omega
    simp [handleChangeToken, hne]
  refine ⟨rfl, rfl, ?_, hvalid, ?_, ?_, ?_⟩
  · intro h
    have hcond : s = "" ∨ s.length < 16 := Or.inr h
    simp [handleChangeToken, hcond]
  · intro h; rw [hvalid h]
  · intro h hne; rw [hvalid h]; exact fun e => hne e.symm
  · intro h; rw [hvalid h]; exact ⟨rfl, rfl⟩

/-- C4, witness: a concrete authorized replacement with a 16-character
token succeeds and overwrites only the in-memory credential. -/
theorem C4_change_token_witness :
    handleChangeToken ⟨none, "changeme-REPLACE_THIS", none⟩ (JsVal.str "b123456789abcdef")
      = (ChangeResp.changed200, ⟨none, "b123456789abcdef", none⟩) :=
  (C4_change_token ⟨none, "changeme-REPLACE_THIS", none⟩ "b123456789abcdef" true "x").2.2.2.1
    (by decide)

/-- C6. The URL Validator accepts a string exactly when it parses as an
absolute URL whose scheme is http or https (it is a pure function of its
argument by construction), and it rejects the claim's relative,
scheme-relative and non-HTTP examples while accepting the absolute https
example. -/
theorem C6_url_validator (s : String) :
    (validateHttpUrl s = true ↔
      ∃ u, parseURL s = some u ∧ (u.protocol = "http:" ∨ u.protocol = "https:"))
  ∧ validateHttpUrl "https://example.com" = true
  ∧ validateHttpUrl "example.com" = false
  ∧ validateHttpUrl "ftp://x" = false
  ∧ validateHttpUrl "//example.com" = false
  ∧ validateHttpUrl "javascript:alert(1)" = false := by
  refine ⟨?_, by decide, by decide, by decide, by decide, by decide⟩
  unfold validateHttpUrl
  cases h : parseURL s with
  | none => simp
  | some u => simp [h]

/-- C7, counterexample. Start the file-fallback variant with no environment
credential: the credential is the fallback constant, hence active (the Auth
Gate does not answer 503), yet /api/info reports adminConfigured = false
and a non-null instructions string — against "adminConfigured reports
whether the admin credential is active" and "instructions is non-null
exactly when the admin credential is inactive". -/
theorem C7_counterexample :
    (initState none).adminToken = fallbackToken
  ∧ (initState none).adminToken ≠ ""
  ∧ requireAdminToken (initState none).adminToken (some fallbackToken) none = AuthResult.ok
  ∧ (infoOf (initState none)).adminConfigured = false
  ∧ (infoOf (initState none)).instructions ≠ none := by
  decide

/-- C7, amended. GET /api/info requires no authentication and never mutates
state; configuredTarget reports whether a target is set and target echoes
the configured value (null otherwise). In the degraded variant,
adminConfigured reports whether the credential is active and instructions
is non-null exactly when it is inactive. In the file-fallback variant,
adminConfigured and instructions are computed from the environment variable
alone — adminConfigured is true iff the environment supplied a non-empty
credential, and instructions is non-null exactly when it did not, even
though the fallback credential is then still active. -/
theorem C7_info (st : ServerState) (t : String) (tg : Option JsVal) :
    (step st Request.getInfo).1 = Resp.infoOk (infoOf st)
  ∧ (step st Request.getInfo).2 = st
  ∧ (infoOf st).adminConfigured = jsTruthy st.envToken
  ∧ ((infoOf st).instructions = none ↔ jsTruthy st.envToken = true)
  ∧ (infoOf st).configuredTarget = optTruthy st.target
  ∧ (infoOf st).target = (if optTruthy st.target then st.target else none)
  ∧ ((infoOfDegraded t tg).adminConfigured = true ↔ t ≠ "")
  ∧ ((infoOfDegraded t tg).instructions = none ↔ t ≠ "")
  ∧ (infoOfDegraded t tg).configuredTarget = optTruthy tg
  ∧ (infoOfDegraded t tg).target = (if optTruthy tg then tg else none) := by
  refine ⟨rfl, rfl, rfl, ?_, rfl, rfl, ?_, ?_, rfl, rfl⟩
  · unfold infoOf
    cases h : jsTruthy st.envToken <;> simp
  · unfold infoOfDegraded
    cases h : t == "" <;> simp_all [bne]
  · unfold infoOfDegraded
    cases h : t == "" <;> simp_all [bne]

/-- C7, witness: in the degraded variant with an active credential the
instructions field is null. -/
theorem C7_info_witness :
    (infoOfDegraded "a123456789abcdef" none).instructions = none :=
  (C7_info ⟨none, "", none⟩ "a123456789abcdef" none).2.2.2.2.2.2.2.1.mpr (by decide)

/-- C8. Initialization: a present non-empty environment value becomes the
credential in both variants; an absent or empty environment value falls
back to the baked-in constant in the file-fallback variant and leaves the
credential Unset (inactive) in the degraded variant, where every
admin-gated operation then answers 503, keeping the process read-only. An
empty-string environment value behaves exactly like an absent one. -/
theorem C8_initialization (s : String) (x a : Option String) :
    (s ≠ "" → initAdminToken_fallback (some s) = s ∧ initAdminToken_degraded (some s) = s)
  ∧ initAdminToken_fallback none = fallbackToken
  ∧ initAdminToken_fallback (some "") = fallbackToken
  ∧ initAdminToken_degraded none = ""
  ∧ initAdminToken_degraded (some "") = ""
  ∧ requireAdminToken (initAdminToken_degraded none) x a = AuthResult.svcUnavailable
  ∧ (initState none).adminToken = initAdminToken_fallback none
  ∧ (initState (some "")).adminToken = initAdminToken_fallback none := by
  refine ⟨?_, rfl, rfl, rfl, rfl, rfl, rfl, rfl⟩
  intro hs
  exact ⟨by simp [initAdminToken_fallback, hs], by simp [initAdminToken_degraded, hs]⟩

/-- C8, witness: a concrete non-empty environment value is taken verbatim
in both variants. -/
theorem C8_initialization_witness :
    initAdminToken_fallback (some "a123456789abcdef") = "a123456789abcdef"
  ∧ initAdminToken_degraded (some "a123456789abcdef") = "a123456789abcdef" :=
  (C8_initialization "a123456789abcdef" none none).1 (by decide)

lemma handleChangeToken_state (st : ServerState) (v : JsVal) :
    (handleChangeToken st v).2.target = st.target
  ∧ (handleChangeToken st v).2.envToken = st.envToken := by
  unfold handleChangeToken
  cases v with
  | undef => exact ⟨rfl, rfl⟩
  | str s => dsimp only; split <;> exact ⟨rfl, rfl⟩
  | other b c => exact ⟨rfl, rfl⟩

/-- C9. Validation failures never mutate state: a configure-target request
answered with the 400 invalid_target response leaves the state exactly as
it was, and a change-credential request answered with the 400
invalid_new_token response leaves the state exactly as it was. -/
theorem C9_validation_atomicity (st : ServerState) (x a : Option String) (v : JsVal) :
    ((step st (Request.setConfig x a v)).1 = Resp.invalidTarget400 →
        (step st (Request.setConfig x a v)).2 = st)
  ∧ ((step st (Request.changeToken x a v)).1 = Resp.changeResp ChangeResp.invalidNewToken400 →
        (step st (Request.changeToken x a v)).2 = st) := by
  constructor
  · intro h
    unfold step gate at h ⊢
    cases hr : requireAdminToken st.adminToken x a <;> simp [hr] at h ⊢
    unfold handleConfig at h ⊢
    by_cases hc : jsValTruthy v = false ∨ validateHttpUrl (jsValCoerce v) = false
    · rw [if_pos hc]
    · rw [if_neg hc] at h
      simp at h
  · intro h
    unfold step gate at h ⊢
    cases hr : requireAdminToken st.adminToken x a <;> simp [hr] at h ⊢
    unfold handleChangeToken at h ⊢
    cases v with
    | undef => rfl
    | str s =>
        dsimp only at h ⊢
        by_cases hc : s = "" ∨ s.length < 16
        · rw [if_pos hc]
        · rw [if_neg hc] at h
          simp at h
    | other b c => rfl

/-- C9, witness: a concrete authorized configure call with an invalid
target leaves the concrete state unchanged. -/
theorem C9_validation_atomicity_witness :
    (step ⟨none, fallbackToken, none⟩
        (Request.setConfig (some fallbackToken) none (JsVal.str "notaurl"))).2
      = ⟨none, fallbackToken, none⟩ :=
  (C9_validation_atomicity ⟨none, fallbackToken, none⟩ (some fallbackToken) none
    (JsVal.str "notaurl")).1 (by decide)

lemma targetInv_step (st : ServerState) (r : Request) (h : targetInv st) :
    targetInv (step st r).2 := by
  cases r with
  | getInfo => exact h
  | otherReq => exact h
  | proxyReq url => exact h
  | getStatus x a =>
      unfold step gate
      dsimp only
      cases hr : requireAdminToken st.adminToken x a <;> exact h
  | changeToken x a v =>
      unfold step gate
      dsimp only
      cases hr : requireAdminToken st.adminToken x a
      case ok =>
        unfold targetInv at h ⊢
        dsimp only
        rw [(handleChangeToken_state st v).1]
        exact h
      all_goals exact h
  | setConfig x a v =>
      unfold step gate
      dsimp only
      cases hr : requireAdminToken st.adminToken x a
      case ok =>
        unfold handleConfig
        by_cases hc : jsValTruthy v = false ∨ validateHttpUrl (jsValCoerce v) = false
        · rw [if_pos hc]; exact h
        · rw [if_neg hc]
          push_neg at hc
          have h1 : jsValTruthy v = true := by
            cases hb : jsValTruthy v
            · exact absurd hb hc.1
            · rfl
          have h2 : validateHttpUrl (jsValCoerce v) = true := by
            cases hb : validateHttpUrl (jsValCoerce v)
            · exact absurd hb hc.2
            · rfl
          exact Or.inr ⟨v, rfl, h1, h2⟩
      all_goals exact h

lemma targetInv_run (rs : List Request) :
    ∀ st : ServerState, targetInv st → targetInv (run st rs) := by
  induction rs with
  | nil => intro st h; exact h
  | cons r rs ih => intro st h; exact ih _ (targetInv_step st r h)

lemma target_mutation (st : ServerState) (r : Request)
    (h : (step st r).2.target ≠ st.target) : mutationOk st r = true := by
  cases r with
  | getInfo => exact absurd rfl h
  | otherReq => exact absurd rfl h
  | proxyReq url => exact absurd rfl h
  | getStatus x a =>
      exfalso
      apply h
      unfold step gate
      dsimp only
      cases hr : requireAdminToken st.adminToken x a <;> rfl
  | changeToken x a v =>
      exfalso
      apply h
      unfold step gate
      dsimp only
      cases hr : requireAdminToken st.adminToken x a
      case ok => exact (handleChangeToken_state st v).1
      all_goals rfl
  | setConfig x a v =>
      unfold step gate at h
      dsimp only at h
      unfold mutationOk
      cases hr : requireAdminToken st.adminToken x a
      case ok =>
        rw [hr] at h
        unfold handleConfig at h
        by_cases hc : jsValTruthy v = false ∨ validateHttpUrl (jsValCoerce v) = false
        · rw [if_pos hc] at h
          exact absurd rfl h
        · push_neg at hc
          have h1 : jsValTruthy v = true := by
            cases hb : jsValTruthy v
            · exact absurd hb hc.1
            · rfl
          have h2 : validateHttpUrl (jsValCoerce v) = true := by
            cases hb : validateHttpUrl (jsValCoerce v)
            · exact absurd hb hc.2
            · rfl
          simp [h1, h2, hr]
      all_goals (rw [hr] at h; exact absurd rfl h)

/-- C5, counterexample. The target slot can reach a non-string value: a
request carrying the valid credential and the JSON body value
["https://example.com"] — a truthy non-string array whose JavaScript
string coercion is the string "https://example.com" — passes `!target`
and `validateHttpUrl(target)` (the URL constructor stringifies its
argument), and the handler stores the array itself in `config.target`.
The reachable state's target is then not null and not a string, against
"at every reachable state it is either null or a string accepted by the
URL Validator". -/
theorem C5_counterexample :
    (run (initState (some "a123456789abcdef"))
        [Request.setConfig (some "a123456789abcdef") none
          (JsVal.other true "https://example.com")]).target
      = some (JsVal.other true "https://example.com")
  ∧ isStr (JsVal.other true "https://example.com") = false := by
  decide

/-- C5, amended. The target configuration starts unset (null) at process
start; at every reachable state it is either null or a truthy value whose
string coercion is accepted by the URL Validator (a string in every
well-typed call, but a non-string JSON body value with an accepted
coercion is also storable); and a step mutates it only when the request is
a configure-target call that passed the Auth Gate and whose body value
passed the truthiness and URL-validation checks. -/
theorem C5_target_invariant (env : Option String) (rs : List Request)
    (st : ServerState) (r : Request) :
    (initState env).target = none
  ∧ targetInv (run (initState env) rs)
  ∧ ((step st r).2.target ≠ st.target → mutationOk st r = true) := by
  refine ⟨rfl, ?_, target_mutation st r⟩
  exact targetInv_run rs (initState env) (Or.inl rfl)

/-- C5, witness: a concrete authorized, validated configure call on the
freshly started state mutates the target, and is of the only permitted
shape. -/
theorem C5_target_invariant_witness :
    mutationOk ⟨none, fallbackToken, none⟩
      (Request.setConfig (some fallbackToken) none (JsVal.str "https://example.com")) = true :=
  (C5_target_invariant none [] ⟨none, fallbackToken, none⟩
      (Request.setConfig (some fallbackToken) none (JsVal.str "https://example.com"))).2.2
    (by decide)
